import Mathlib

/-!
Verification of the continuous streaming-recognition session manager of the
`audio-recognition-system` repository (files `main.py` and
`recognition/speech_recognition.py`).

The Python code is shallowly embedded: each mutable object becomes a record,
each method a pure function from the record (plus the inputs the method reads)
to the updated record together with the externally visible effects it performs.
Wall-clock times are natural-number seconds; Python truthiness of an optional
time (`if self.program_start_time and ...`) is modelled by `truthyTime`.
Thread interleaving is modelled by letting every loop iteration observe the
shared fields it reads (one observation record per iteration).
-/

namespace MeetingTranslator

/-- `SystemState` enum of `main.py` (ACTIVE / PAUSED / WAITING_INPUT /
AUTHENTICATING / SHUTTING_DOWN). -/
inductive SystemState where
  | active
  | paused
  | waitingInput
  | authenticating
  | shuttingDown
deriving DecidableEq, Repr

/-- `PauseReason` enum of `main.py`. -/
inductive PauseReason where
  | silence
  | runtime
deriving DecidableEq, Repr

/-- Python truthiness of an optional timestamp: `None` and `0` are falsy. -/
def truthyTime : Option Nat → Bool
  | none => false
  | some n => n ≠ 0

/-- Drop leading and trailing whitespace characters from a character list. -/
def stripList (l : List Char) : List Char :=
  ((l.dropWhile Char.isWhitespace).reverse.dropWhile Char.isWhitespace).reverse

/-- Python `str.strip()`. -/
def pyStrip (s : String) : String :=
  String.mk (stripList s.data)

/-- Python `str.lower()`. -/
def pyLower (s : String) : String :=
  String.mk (s.data.map Char.toLower)

/-- Mutable fields of `SimpleStreamingSpeechRecognition` that the session
manager reads and writes.  A queue item `none` is the `None` termination
sentinel, `some d` an audio frame (frame payloads are abstracted to `Nat`). -/
structure RecState where
  audio_queue : List (Option Nat)
  streaming_active : Bool
  streaming_start_time : Option Nat
  max_streaming_duration : Nat
  response_count : Nat
deriving DecidableEq, Repr

/-- `SimpleStreamingSpeechRecognition.__init__`: empty queue, inactive,
no start time, 300-second per-connection ceiling. -/
def initRecState : RecState :=
  { audio_queue := []
    streaming_active := false
    streaming_start_time := none
    max_streaming_duration := 300
    response_count := 0 }

/-- `add_audio_data`: enqueue the frame only while `streaming_active`. -/
def add_audio_data (d : Nat) (s : RecState) : RecState :=
  if s.streaming_active then { s with audio_queue := s.audio_queue ++ [some d] } else s

/-- Enqueue a whole list of produced frames in production order. -/
def addFrames (fs : List Nat) (s : RecState) : RecState :=
  fs.foldl (fun st f => add_audio_data f st) s

/-- `stop_recognition`: clear `streaming_active` and unconditionally enqueue
one `None` sentinel. -/
def stop_recognition (s : RecState) : RecState :=
  { s with streaming_active := false, audio_queue := s.audio_queue ++ [none] }

/-- `_reset_for_reconnection`: drain the audio queue, clear the active flag,
zero the response counter. -/
def reset_for_reconnection (s : RecState) : RecState :=
  { s with audio_queue := [], streaming_active := false, response_count := 0 }

/-- `is_active`. -/
def is_active (s : RecState) : Bool :=
  s.streaming_active

/-- The first two statements of `start_streaming_recognition`: set
`streaming_active := True` and stamp `streaming_start_time` with now. -/
def start_streaming_init (now : Nat) (s : RecState) : RecState :=
  { s with streaming_active := true, streaming_start_time := some now }

/-- What one iteration of the `_audio_generator` while-loop observes of the
shared state: the `streaming_active` flag and the current wall clock. -/
structure GenObs where
  active : Bool
  now : Nat
deriving DecidableEq, Repr

/-- `_audio_generator`: per iteration, exit if `streaming_active` is false;
break if the elapsed time exceeds `max_streaming_duration`; otherwise
non-blockingly poll the queue (empty: continue; `None` sentinel: break;
frame: yield it).  The returned list is the sequence of yielded frames;
the observation list bounds how many iterations are run. -/
def audioGeneratorRun (maxDur : Nat) (start : Option Nat) :
    List GenObs → List (Option Nat) → List Nat
  | [], _ => []
  | o :: os, q =>
    if o.active = false then []
    else if truthyTime start = true ∧ o.now - start.getD 0 > maxDur then []
    else
      match q with
      | [] => audioGeneratorRun maxDur start os []
      | none :: _ => []
      | some f :: q' => f :: audioGeneratorRun maxDur start os q'

/-- One alternative of a streaming recognition result
(`result.alternatives[i]`); confidence is abstracted to `Nat`. -/
structure SpeechAlt where
  transcript : String
  confidence : Nat
deriving DecidableEq, Repr

/-- One streaming recognition result (`response.results[i]`). -/
structure RecResult where
  is_final : Bool
  alternatives : List SpeechAlt
deriving DecidableEq, Repr

/-- One invocation of `result_callback(transcript, confidence, is_final)`. -/
structure CallbackCall where
  transcript : String
  confidence : Nat
  is_final : Bool
deriving DecidableEq, Repr

/-- Processing of one result inside the response loop of
`_run_streaming_recognition`: take the first alternative if any; if its
transcript is non-empty after stripping, dispatch the callback (when one is
registered); a final result additionally makes the loop `return` immediately
after the dispatch (second component `true`).  Empty transcripts and results
without alternatives are skipped. -/
def processResult (cbPresent : Bool) (r : RecResult) : List CallbackCall × Bool :=
  match r.alternatives with
  | [] => ([], false)
  | alt :: _ =>
    if (pyStrip alt.transcript).isEmpty then ([], false)
    else if r.is_final then
      ((if cbPresent then [⟨alt.transcript, alt.confidence, true⟩] else []), true)
    else
      ((if cbPresent then [⟨alt.transcript, alt.confidence, false⟩] else []), false)

/-- The `for i, result in enumerate(response.results)` loop: process the
results in order; a `true` early-exit flag from one result ends the loop (the
`return` inside the loop), discarding the later results. -/
def processResults (cbPresent : Bool) : List RecResult → List CallbackCall × Bool
  | [] => ([], false)
  | r :: rs =>
    let p := processResult cbPresent r
    if p.2 then (p.1, true)
    else
      let q := processResults cbPresent rs
      (p.1 ++ q.1, q.2)

/-- The `for response in response_stream` loop: a `return` raised while
processing one response's results ends the whole loop, so the remaining
responses of that connection are never read. -/
def processResponses (cbPresent : Bool) : List (List RecResult) → List CallbackCall
  | [] => []
  | resp :: resps =>
    let p := processResults cbPresent resp
    if p.2 then p.1 else p.1 ++ processResponses cbPresent resps

/-- Outcome of one `start_streaming_recognition` call as seen by its caller. -/
inductive SessionOutcome where
  | completedNormally
  | raisedError
deriving DecidableEq, Repr

/-- `_run_streaming_recognition`: the whole body sits in
`try ... except Exception ... finally: self.streaming_active = False`, so
whether the inner streaming work succeeds (`Except.ok` with the dispatched
callback calls) or raises (`Except.error`), the method itself returns
normally and leaves `streaming_active` false. -/
def run_streaming_recognition (inner : Except String (List CallbackCall))
    (s : RecState) : RecState × List CallbackCall × SessionOutcome :=
  match inner with
  | Except.ok calls => ({ s with streaming_active := false }, calls, SessionOutcome.completedNormally)
  | Except.error _ => ({ s with streaming_active := false }, [], SessionOutcome.completedNormally)

/-- Decision taken at the top of each `_continuous_speech_recognition_thread`
iteration. -/
inductive SupDecision where
  | exitLoop
  | sleepRecheck
  | proceedToSession
deriving DecidableEq, Repr

/-- Top of the supervisor loop: exit when the running flag is cleared
(`while self.is_running.is_set()`); if the system state is not ACTIVE,
sleep one second and re-check; otherwise proceed to run a session. -/
def supervisorPreCheck (running : Bool) (state : SystemState) : SupDecision :=
  if running = false then SupDecision.exitLoop
  else if state ≠ SystemState.active then SupDecision.sleepRecheck
  else SupDecision.proceedToSession

/-- `reconnection_count += 1; if reconnection_count == 1: pass else:
self.speech_recognition._reset_for_reconnection()`: the queue-draining reset
runs only from the second connection onward. -/
def supervisorPrepare (reconnection_count : Nat) (rec : RecState) : Nat × RecState :=
  let c := reconnection_count + 1
  if c = 1 then (c, rec) else (c, reset_for_reconnection rec)

/-- Decision taken after a session ended (both the normal-return and the
exception branch of the supervisor loop). -/
inductive PostDecision where
  | reconnectImmediately
  | exitLoop
deriving DecidableEq, Repr

/-- After `start_streaming_recognition` returns (or raises): under the state
lock, `continue` immediately — with no sleep — when the system state is still
ACTIVE and the running flag is set, otherwise `break`.  The normal-return
branch and the `except` branch of the loop body are textually identical. -/
def supervisorPostSession (outcome : SessionOutcome) (state : SystemState)
    (running : Bool) : PostDecision :=
  match outcome with
  | SessionOutcome.completedNormally =>
    if state = SystemState.active ∧ running = true then PostDecision.reconnectImmediately
    else PostDecision.exitLoop
  | SessionOutcome.raisedError =>
    if state = SystemState.active ∧ running = true then PostDecision.reconnectImmediately
    else PostDecision.exitLoop

/-- Mutable fields of `SimpleAudioRecognitionSystem` touched by the
coordinator: the shared state machine, the process-wide running flag, the two
timers, the placeholder map (`{placeholder_id: timestamp}`), the id of the
currently open placeholder, and the final-result queue
(`(transcript, placeholder_id)` tuples). -/
structure CoordState where
  system_state : SystemState
  is_running : Bool
  program_start_time : Option Nat
  last_speech_time : Option Nat
  active_placeholders : List (String × Nat)
  current_placeholder_id : Option String
  result_queue : List (String × Option String)
deriving DecidableEq, Repr

/-- Externally visible system effects (collaborator calls, thread starts,
sleeps, process exit) in program order. -/
inductive Eff where
  | stopCapture
  | stopRecognition
  | startCaptureThread
  | startRecognitionThread
  | startMonitorThread
  | sleepSeconds (n : Nat)
  | exitProcess
deriving DecidableEq, Repr

/-- Document-writer calls issued by the placeholder pipeline. -/
inductive DocOp where
  | insertPlaceholder (id : String)
  | updatePlaceholder (id : String)
  | writeEntry
  | writeFailureEntry
deriving DecidableEq, Repr

/-- The locked head of `_trigger_auto_pause`: under the state lock, a no-op
(second component `false`) unless the state is ACTIVE at that instant, in
which case the single ACTIVE → PAUSED transition is applied. -/
def trigger_auto_pause_lock (s : SystemState) : SystemState × Bool :=
  if s = SystemState.active then (SystemState.paused, true) else (s, false)

/-- What one iteration of `timeout_monitor_thread` observes of the shared
state: the running flag and the system state read under the lock, the wall
clock, both timers, and the system state found when `_trigger_auto_pause`
later re-acquires the lock (other threads may have changed it in between). -/
structure MonIter where
  running : Bool
  stateAtCheck : SystemState
  stateAtTrigger : SystemState
  now : Nat
  prog : Option Nat
  last : Option Nat
deriving DecidableEq, Repr

/-- How a run of the timeout monitor loop ended. -/
inductive MonStop where
  | runningCleared
  | shutdownBreak
  | triggered (reason : PauseReason) (transitioned : Bool)
  | outOfObs
deriving DecidableEq, Repr

/-- The two threshold checks of one monitor iteration, in source order:
runtime first (`now - program_start_time > MAX_RUNTIME`), then silence
(`now - last_speech_time > SILENCE_TIMEOUT`); either requires a truthy
timer. -/
def monIterBreach (maxRuntime silenceTimeout : Nat) (it : MonIter) : Option PauseReason :=
  if truthyTime it.prog = true ∧ it.now - it.prog.getD 0 > maxRuntime then
    some PauseReason.runtime
  else if truthyTime it.last = true ∧ it.now - it.last.getD 0 > silenceTimeout then
    some PauseReason.silence
  else none

/-- `timeout_monitor_thread`: per iteration — exit if the running flag is
cleared; break on SHUTTING_DOWN; sleep and re-check when not ACTIVE;
on a threshold breach call `_trigger_auto_pause` and `return` (the loop ends
after the first trigger, whether or not the trigger transitioned); otherwise
sleep five seconds and continue.  Returns the number of ACTIVE → PAUSED
transitions performed and how the loop ended. -/
def timeoutMonitorRun (maxRuntime silenceTimeout : Nat) : List MonIter → Nat × MonStop
  | [] => (0, MonStop.outOfObs)
  | it :: rest =>
    if it.running = false then (0, MonStop.runningCleared)
    else if it.stateAtCheck = SystemState.shuttingDown then (0, MonStop.shutdownBreak)
    else if it.stateAtCheck ≠ SystemState.active then
      timeoutMonitorRun maxRuntime silenceTimeout rest
    else
      match monIterBreach maxRuntime silenceTimeout it with
      | some r =>
        let t := trigger_auto_pause_lock it.stateAtTrigger
        ((if t.2 then 1 else 0), MonStop.triggered r t.2)
      | none => timeoutMonitorRun maxRuntime silenceTimeout rest

/-- `_resume_system`: under the state lock, set ACTIVE, reset both timers to
now, and start the audio capture, the continuous recognition loop and the
timeout monitor threads. -/
def resume_system (now : Nat) (s : CoordState) : CoordState × List Eff :=
  ({ s with system_state := SystemState.active
            program_start_time := some now
            last_speech_time := some now },
   [Eff.startCaptureThread, Eff.startRecognitionThread, Eff.startMonitorThread])

/-- `_shutdown_system`: set SHUTTING_DOWN under the lock, clear the running
flag, stop the audio capture and the streaming recognition, then
`sys.exit(0)`. -/
def shutdown_system (s : CoordState) : CoordState × List Eff :=
  ({ s with system_state := SystemState.shuttingDown, is_running := false },
   [Eff.stopCapture, Eff.stopRecognition, Eff.exitProcess])

/-- The `except KeyboardInterrupt` branch of `run`'s main loop (how a SIGINT
delivered to the main thread is handled; `setup_signal_handlers` is never
called): set SHUTTING_DOWN under the lock, clear the running flag, stop the
audio capture and the streaming recognition, sleep two seconds, and fall out
of `run`, ending the process. -/
def run_keyboard_interrupt (s : CoordState) : CoordState × List Eff :=
  ({ s with system_state := SystemState.shuttingDown, is_running := false },
   [Eff.stopCapture, Eff.stopRecognition, Eff.sleepSeconds 2, Eff.exitProcess])

/-- Effects other than sleeps (used to compare shutdown paths). -/
def isCoreEff : Eff → Bool
  | Eff.sleepSeconds _ => false
  | _ => true

/-- How one `_wait_for_user_input` loop iteration ended. -/
inductive WaitOutcome where
  | abortedShutdown
  | resumed
  | terminated
  | invalidInput
deriving DecidableEq, Repr

/-- One iteration of the `_wait_for_user_input` command loop: return at once
when the state is already SHUTTING_DOWN; otherwise strip and lowercase the
line; empty input resumes (`_resume_system`), `q`/`x` terminates
(`_shutdown_system`), anything else is reported and ignored. -/
def wait_for_user_input_step (now : Nat) (line : String) (s : CoordState) :
    CoordState × List Eff × WaitOutcome :=
  if s.system_state = SystemState.shuttingDown then (s, [], WaitOutcome.abortedShutdown)
  else
    let cmd := pyLower (pyStrip line)
    if cmd = "" then
      let r := resume_system now s
      (r.1, r.2, WaitOutcome.resumed)
    else if cmd = "q" ∨ cmd = "x" then
      let r := shutdown_system s
      (r.1, r.2, WaitOutcome.terminated)
    else (s, [], WaitOutcome.invalidInput)

/-- `_auth_state_callback`: `"start"` sets AUTHENTICATING (no guard on the
current state); `"end"` restores ACTIVE only when the state is still
AUTHENTICATING; any other message leaves the state unchanged. -/
def auth_state_callback (msg : String) (s : SystemState) : SystemState :=
  if msg = "start" then SystemState.authenticating
  else if msg = "end" then
    (if s = SystemState.authenticating then SystemState.active else s)
  else s

/-- Membership of a placeholder id in the `active_placeholders` map. -/
def phMem (id : String) : List (String × Nat) → Bool
  | [] => false
  | (k, _) :: rest => if k = id then true else phMem id rest

/-- `del self.active_placeholders[id]`: remove the entry for `id`. -/
def phErase (id : String) : List (String × Nat) → List (String × Nat)
  | [] => []
  | (k, v) :: rest => if k = id then phErase id rest else (k, v) :: phErase id rest

/-- The `recognition_callback` closure of `SimpleAudioRecognitionSystem`:
skip blank transcripts; a partial result opens a placeholder (insert the
document placeholder, record `(id, now)` in the map and set
`current_placeholder_id`) only when no placeholder is currently open and the
docs writer is enabled; a final result enqueues
`(transcript, current_placeholder_id)` on the result queue, clears
`current_placeholder_id` and stamps `last_speech_time := now`. -/
def recognition_callback (docsEnabled : Bool) (newId : String) (now : Nat)
    (transcript : String) (is_final : Bool) (s : CoordState) :
    CoordState × List DocOp :=
  if (pyStrip transcript).isEmpty then (s, [])
  else if is_final = false then
    match s.current_placeholder_id with
    | some _ => (s, [])
    | none =>
      if docsEnabled then
        ({ s with active_placeholders := s.active_placeholders ++ [(newId, now)]
                  current_placeholder_id := some newId },
         [DocOp.insertPlaceholder newId])
      else (s, [])
  else
    ({ s with result_queue := s.result_queue ++ [(transcript, s.current_placeholder_id)]
              current_placeholder_id := none
              last_speech_time := some now }, [])

/-- Handling of one dequeued `(transcript, placeholder_id)` entry in
`result_processing_thread`: skip blank transcripts; the transcription-only
and translation-disabled modes bypass the document pipeline; on successful
translation, a truthy placeholder id that is present in the map attempts
`update_placeholder` — the map entry is deleted only when the update
succeeds, while a failed update falls back to a plain append and leaves the
entry in the map; without a usable placeholder the entry is appended; a
failed translation writes a failure entry and also leaves the map
untouched. -/
def processResultEntry (transcription_only disable_translation docs_present : Bool)
    (translateOk updateOk : Bool) (transcript : String) (pid : Option String)
    (s : CoordState) : CoordState × List DocOp :=
  if (pyStrip transcript).isEmpty then (s, [])
  else if transcription_only then (s, [])
  else if disable_translation then (s, [])
  else if translateOk then
    if docs_present then
      match pid with
      | some id =>
        if id ≠ "" ∧ phMem id s.active_placeholders = true then
          if updateOk then
            ({ s with active_placeholders := phErase id s.active_placeholders },
             [DocOp.updatePlaceholder id])
          else (s, [DocOp.updatePlaceholder id, DocOp.writeEntry])
        else (s, [DocOp.writeEntry])
      | none => (s, [DocOp.writeEntry])
    else (s, [])
  else
    if docs_present then (s, [DocOp.writeFailureEntry]) else (s, [])

/-! ### Helper lemmas -/

theorem add_audio_data_preserves_active (d : Nat) (s : RecState) :
    (add_audio_data d s).streaming_active = s.streaming_active := by
  unfold add_audio_data
  split <;> rfl

theorem addFrames_cons (f : Nat) (fs : List Nat) (s : RecState) :
    addFrames (f :: fs) s = addFrames fs (add_audio_data f s) := rfl

theorem add_audio_data_queue_of_active (d : Nat) (s : RecState)
    (h : s.streaming_active = true) :
    (add_audio_data d s).audio_queue = s.audio_queue ++ [some d] := by
  simp [add_audio_data, h]

theorem addFrames_queue_of_active :
    ∀ (fs : List Nat) (s : RecState), s.streaming_active = true →
      (addFrames fs s).audio_queue = s.audio_queue ++ fs.map some
  | [], s, _ => by simp [addFrames]
  | f :: fs, s, h => by
    have h2 : (add_audio_data f s).streaming_active = true := by
      rw [add_audio_data_preserves_active]; exact h
    rw [addFrames_cons, addFrames_queue_of_active fs _ h2,
      add_audio_data_queue_of_active f s h]
    simp

theorem processResults_early_append (cb : Bool) (r : RecResult)
    (calls : List CallbackCall) (hr : processResult cb r = (calls, true)) :
    ∀ (pre post : List RecResult), (processResults cb pre).2 = false →
      processResults cb (pre ++ r :: post)
        = ((processResults cb pre).1 ++ calls, true)
  | [], post, _ => by simp [processResults, hr]
  | p :: pre, post, hpre => by
    by_cases hp : (processResult cb p).2 = true
    · exfalso
      simp [processResults, hp] at hpre
    · have hp' : (processResult cb p).2 = false := by
        cases h : (processResult cb p).2
        · rfl
        · exact absurd h hp
      have hpre' : (processResults cb pre).2 = false := by
        simpa [processResults, hp'] using hpre
      have ih := processResults_early_append cb r calls hr pre post hpre'
      simp [processResults, hp', ih, hpre']

theorem monitorRun_pause_count_le_one (maxRuntime silenceTimeout : Nat) :
    ∀ obs : List MonIter, (timeoutMonitorRun maxRuntime silenceTimeout obs).1 ≤ 1
  | [] => by simp [timeoutMonitorRun]
  | it :: rest => by
    have ih := monitorRun_pause_count_le_one maxRuntime silenceTimeout rest
    unfold timeoutMonitorRun
    split
    · exact Nat.zero_le 1
    · split
      · exact Nat.zero_le 1
      · split
        · exact ih
        · cases hbr : monIterBreach maxRuntime silenceTimeout it with
          | some r =>
            simp only [hbr]
            split <;> simp
          | none =>
            simp only [hbr]
            exact ih

theorem phMem_phErase (id : String) :
    ∀ m : List (String × Nat), phMem id (phErase id m) = false
  | [] => rfl
  | (k, v) :: rest => by
    by_cases hk : k = id
    · simp [phErase, hk, phMem_phErase id rest]
    · simp [phErase, phMem, hk, phMem_phErase id rest]

/-! ### Claim theorems -/

/-- Claim C1: once the wall-clock time since the session's start exceeds the
configured `max_streaming_duration` ceiling of 300 seconds, the outbound audio
generator stops producing frames; the session run returns normally whatever
happened inside it (every exception is caught); and the supervisor loop, with
the state ACTIVE and the running flag set, decides to reconnect immediately
with no delay and its next iteration proceeds into a new session. -/
theorem c1_duration_cap_completed_and_immediate_reconnect
    (st now : Nat) (os : List GenObs) (q : List (Option Nat))
    (inner : Except String (List CallbackCall)) (s : RecState)
    (hst : 0 < st) (hnow : now - st > 300) :
    audioGeneratorRun 300 (some st) ({ active := true, now := now } :: os) q = []
    ∧ (run_streaming_recognition inner s).2.2 = SessionOutcome.completedNormally
    ∧ supervisorPostSession SessionOutcome.completedNormally SystemState.active true
        = PostDecision.reconnectImmediately
    ∧ supervisorPreCheck true SystemState.active = SupDecision.proceedToSession
    ∧ initRecState.max_streaming_duration = 300 := by
  refine ⟨?_, ?_, rfl, rfl, rfl⟩
  · have h1 : truthyTime (some st) = true := by
      simp [truthyTime]
      omega
    simp [audioGeneratorRun, h1, hnow]
  · cases inner <;> rfl

theorem c1_witness :
    audioGeneratorRun 300 (some 1) ({ active := true, now := 302 } :: []) []
        = []
    ∧ (run_streaming_recognition (Except.ok []) initRecState).2.2
        = SessionOutcome.completedNormally
    ∧ supervisorPostSession SessionOutcome.completedNormally SystemState.active true
        = PostDecision.reconnectImmediately
    ∧ supervisorPreCheck true SystemState.active = SupDecision.proceedToSession
    ∧ initRecState.max_streaming_duration = 300 :=
  c1_duration_cap_completed_and_immediate_reconnect 1 302 [] [] (Except.ok [])
    initRecState (by decide) (by decide)

/-- Claim C2: over any run of the timeout monitor at most one ACTIVE → PAUSED
transition is performed; `_trigger_auto_pause` is a no-op unless the state is
ACTIVE at the instant its lock is held; and on the first iteration that sees
ACTIVE with a breached threshold the monitor triggers and exits its loop at
once (the remaining iterations are never run), performing exactly one
transition when the state is still ACTIVE under the trigger's lock. -/
theorem c2_auto_pause_exactly_once
    (maxRuntime silenceTimeout : Nat) (obs rest : List MonIter) (it : MonIter)
    (r : PauseReason)
    (hrun : it.running = true) (hchk : it.stateAtCheck = SystemState.active)
    (hbr : monIterBreach maxRuntime silenceTimeout it = some r) :
    (timeoutMonitorRun maxRuntime silenceTimeout obs).1 ≤ 1
    ∧ (∀ st : SystemState, st ≠ SystemState.active →
        trigger_auto_pause_lock st = (st, false))
    ∧ (it.stateAtTrigger = SystemState.active →
        timeoutMonitorRun maxRuntime silenceTimeout (it :: rest)
          = (1, MonStop.triggered r true))
    ∧ (it.stateAtTrigger ≠ SystemState.active →
        timeoutMonitorRun maxRuntime silenceTimeout (it :: rest)
          = (0, MonStop.triggered r false)) := by
  refine ⟨monitorRun_pause_count_le_one maxRuntime silenceTimeout obs, ?_, ?_, ?_⟩
  · intro st h
    simp [trigger_auto_pause_lock, h]
  · intro htr
    simp [timeoutMonitorRun, hrun, hchk, hbr, trigger_auto_pause_lock, htr]
  · intro htr
    simp [timeoutMonitorRun, hrun, hchk, hbr, trigger_auto_pause_lock, htr]

theorem c2_witness :
    (timeoutMonitorRun 60 30 []).1 ≤ 1
    ∧ (∀ st : SystemState, st ≠ SystemState.active →
        trigger_auto_pause_lock st = (st, false))
    ∧ (({ running := true, stateAtCheck := SystemState.active,
          stateAtTrigger := SystemState.active, now := 400,
          prog := some 1, last := some 1 } : MonIter).stateAtTrigger
            = SystemState.active →
        timeoutMonitorRun 60 30
          [{ running := true, stateAtCheck := SystemState.active,
             stateAtTrigger := SystemState.active, now := 400,
             prog := some 1, last := some 1 }]
          = (1, MonStop.triggered PauseReason.runtime true))
    ∧ (({ running := true, stateAtCheck := SystemState.active,
          stateAtTrigger := SystemState.active, now := 400,
          prog := some 1, last := some 1 } : MonIter).stateAtTrigger
            ≠ SystemState.active →
        timeoutMonitorRun 60 30
          [{ running := true, stateAtCheck := SystemState.active,
             stateAtTrigger := SystemState.active, now := 400,
             prog := some 1, last := some 1 }]
          = (0, MonStop.triggered PauseReason.runtime false)) :=
  c2_auto_pause_exactly_once 60 30 [] []
    { running := true, stateAtCheck := SystemState.active,
      stateAtTrigger := SystemState.active, now := 400,
      prog := some 1, last := some 1 }
    PauseReason.runtime rfl rfl (by decide)

/-- Claim C3: a resume command (input that is empty after stripping) received
while the state is WAITING_INPUT transitions the system to ACTIVE and, in the
same locked update, resets both `program_start_time` and `last_speech_time`
to now and restarts the audio capture, the continuous recognition loop and
the timeout monitor threads. -/
theorem c3_resume_resets_timers_and_restarts_threads
    (now : Nat) (line : String) (s : CoordState)
    (hw : s.system_state = SystemState.waitingInput)
    (hline : pyLower (pyStrip line) = "") :
    (wait_for_user_input_step now line s).1
      = { s with system_state := SystemState.active
                 program_start_time := some now
                 last_speech_time := some now }
    ∧ (wait_for_user_input_step now line s).2.1
      = [Eff.startCaptureThread, Eff.startRecognitionThread, Eff.startMonitorThread]
    ∧ (wait_for_user_input_step now line s).2.2 = WaitOutcome.resumed := by
  have hns : s.system_state ≠ SystemState.shuttingDown := by
    rw [hw]
    decide
  simp [wait_for_user_input_step, hns, hline, resume_system]

theorem c3_witness :
    (wait_for_user_input_step 9 ""
      { system_state := SystemState.waitingInput, is_running := true,
        program_start_time := some 3, last_speech_time := some 4,
        active_placeholders := [], current_placeholder_id := none,
        result_queue := [] }).1
      = { system_state := SystemState.active, is_running := true,
          program_start_time := some 9, last_speech_time := some 9,
          active_placeholders := [], current_placeholder_id := none,
          result_queue := [] }
    ∧ (wait_for_user_input_step 9 ""
        { system_state := SystemState.waitingInput, is_running := true,
          program_start_time := some 3, last_speech_time := some 4,
          active_placeholders := [], current_placeholder_id := none,
          result_queue := [] }).2.1
      = [Eff.startCaptureThread, Eff.startRecognitionThread, Eff.startMonitorThread]
    ∧ (wait_for_user_input_step 9 ""
        { system_state := SystemState.waitingInput, is_running := true,
          program_start_time := some 3, last_speech_time := some 4,
          active_placeholders := [], current_placeholder_id := none,
          result_queue := [] }).2.2 = WaitOutcome.resumed :=
  c3_resume_resets_timers_and_restarts_threads 9 ""
    { system_state := SystemState.waitingInput, is_running := true,
      program_start_time := some 3, last_speech_time := some 4,
      active_placeholders := [], current_placeholder_id := none,
      result_queue := [] }
    rfl (by decide)

/-- Claim C4: on every supervisor session start after the first, the
reconnection reset runs and empties the audio queue, so the new session
starts with an empty queue; frames produced after the reset are the only
content of the queue, and the first frame the new session's generator
transmits is the first frame produced after the reset. -/
theorem c4_reconnect_starts_with_empty_queue
    (count : Nat) (rec : RecState) (now : Nat) (f : Nat) (fs : List Nat)
    (o : GenObs) (os : List GenObs)
    (hc : 1 ≤ count) (ho : o.active = true)
    (hin : o.now - now ≤ rec.max_streaming_duration) :
    (supervisorPrepare count rec).2 = reset_for_reconnection rec
    ∧ (reset_for_reconnection rec).audio_queue = []
    ∧ (addFrames (f :: fs)
        (start_streaming_init now (reset_for_reconnection rec))).audio_queue
      = (f :: fs).map some
    ∧ audioGeneratorRun rec.max_streaming_duration (some now) (o :: os)
        ((f :: fs).map some)
      = f :: audioGeneratorRun rec.max_streaming_duration (some now) os
          (fs.map some) := by
  refine ⟨?_, rfl, ?_, ?_⟩
  · have h1 : count + 1 ≠ 1 := by omega
    simp [supervisorPrepare, h1]
  · have h2 : (start_streaming_init now (reset_for_reconnection rec)).streaming_active
        = true := rfl
    rw [addFrames_queue_of_active (f :: fs) _ h2]
    rfl
  · simp only [List.map_cons, audioGeneratorRun, ho]
    simp
    intro _
    omega

theorem c4_witness :
    (supervisorPrepare 1 initRecState).2 = reset_for_reconnection initRecState
    ∧ (reset_for_reconnection initRecState).audio_queue = []
    ∧ (addFrames [7]
        (start_streaming_init 5 (reset_for_reconnection initRecState))).audio_queue
      = [7].map some
    ∧ audioGeneratorRun initRecState.max_streaming_duration (some 5)
        ({ active := true, now := 5 } :: []) ([7].map some)
      = 7 :: audioGeneratorRun initRecState.max_streaming_duration (some 5) []
          (List.map some []) :=
  c4_reconnect_starts_with_empty_queue 1 initRecState 5 7 []
    { active := true, now := 5 } [] (by decide) rfl (by decide)

/-- Claim C5: when a result with `is_final = true` and a non-blank transcript
is reached (no earlier result having ended the loop), the session dispatches
exactly one callback call for it and then immediately returns from the
response-processing loop: the remaining results of that response and all the
remaining responses of that connection are discarded. -/
theorem c5_final_result_dispatch_then_return
    (pre post : List RecResult) (resps : List (List RecResult))
    (r : RecResult) (alt : SpeechAlt) (alts : List SpeechAlt)
    (halts : r.alternatives = alt :: alts) (hfin : r.is_final = true)
    (hne : (pyStrip alt.transcript).isEmpty = false)
    (hpre : (processResults true pre).2 = false) :
    processResults true (pre ++ r :: post)
      = ((processResults true pre).1
          ++ [{ transcript := alt.transcript, confidence := alt.confidence,
                is_final := true }], true)
    ∧ processResponses true ((pre ++ r :: post) :: resps)
      = (processResults true pre).1
          ++ [{ transcript := alt.transcript, confidence := alt.confidence,
                is_final := true }] := by
  have hr : processResult true r
      = ([{ transcript := alt.transcript, confidence := alt.confidence,
            is_final := true }], true) := by
    simp [processResult, halts, hne, hfin]
  have h1 := processResults_early_append true r _ hr pre post hpre
  refine ⟨h1, ?_⟩
  simp [processResponses, h1]

theorem c5_witness :
    processResults true
        ([] ++ ({ is_final := true,
                  alternatives := [{ transcript := "hi", confidence := 9 }] } : RecResult) :: [])
      = ((processResults true []).1
          ++ [{ transcript := "hi", confidence := 9, is_final := true }], true)
    ∧ processResponses true
        (([] ++ ({ is_final := true,
                   alternatives := [{ transcript := "hi", confidence := 9 }] } : RecResult) :: []) :: [[{ is_final := false, alternatives := [] }]])
      = (processResults true []).1
          ++ [{ transcript := "hi", confidence := 9, is_final := true }] :=
  c5_final_result_dispatch_then_return [] [] [[{ is_final := false, alternatives := [] }]]
    { is_final := true, alternatives := [{ transcript := "hi", confidence := 9 }] }
    { transcript := "hi", confidence := 9 } [] rfl rfl (by decide) rfl

/-- Claim C6 as stated is false: a result whose first alternative is blank is
delivered by the service but never reaches the callback.  Concretely, a
partial result carrying the transcript `" "` produces no callback call (and
no early exit). -/
theorem c6_counterexample_blank_transcript_skipped :
    processResult true
        { is_final := false,
          alternatives := [{ transcript := " ", confidence := 7 }] }
      = ([], false) := by
  decide

/-- Claim C6 (amended): every result whose first alternative has a non-blank
transcript — partial or final — is dispatched to the callback synchronously
from the response loop; results with a blank transcript or without
alternatives are skipped. -/
theorem c6_callback_invoked_for_nonblank_results
    (r : RecResult) (alt : SpeechAlt) (alts : List SpeechAlt)
    (halts : r.alternatives = alt :: alts)
    (hne : (pyStrip alt.transcript).isEmpty = false) :
    (processResult true r).1
      = [{ transcript := alt.transcript, confidence := alt.confidence,
           is_final := r.is_final }]
    ∧ (processResult true { is_final := r.is_final, alternatives := [] }).1 = [] := by
  constructor
  · cases hf : r.is_final <;> simp [processResult, halts, hne, hf]
  · simp [processResult]

theorem c6_witness :
    (processResult true
        { is_final := false,
          alternatives := [{ transcript := "hi", confidence := 9 }] }).1
      = [{ transcript := "hi", confidence := 9, is_final := false }]
    ∧ (processResult true { is_final := false, alternatives := [] }).1 = [] :=
  c6_callback_invoked_for_nonblank_results
    { is_final := false, alternatives := [{ transcript := "hi", confidence := 9 }] }
    { transcript := "hi", confidence := 9 } [] rfl (by decide)

/-- Claim C7 as stated is false: when the placeholder update fails and the
write falls back to a plain append, the entry is NOT removed from
`active_placeholders` — only the update-success path deletes it.  Concretely,
processing the final result `"hello"` with placeholder id `"ab"` present in
the map, successful translation but failed `update_placeholder`, leaves
`"ab"` in the map. -/
theorem c7_counterexample_update_failure_leaks_placeholder :
    phMem "ab"
      ((processResultEntry false false true true false "hello" (some "ab")
          { system_state := SystemState.active, is_running := true,
            program_start_time := none, last_speech_time := none,
            active_placeholders := [("ab", 5)], current_placeholder_id := none,
            result_queue := [] }).1.active_placeholders) = true := by
  decide

/-- Claim C7 (amended): a final result always clears
`current_placeholder_id` (so at most one placeholder is open at a time, a
partial result arriving while one is open opens no second one), and the
placeholder's map entry is removed exactly on the success path — translation
succeeded, docs writer present, id in the map, `update_placeholder` returned
true; when the update fails (fallback append) or the translation fails, the
entry persists in the map. -/
theorem c7_placeholder_cleared_only_on_update_success
    (d : Bool) (newId : String) (now : Nat) (t : String) (s : CoordState)
    (id : String) (pid : String)
    (ht : (pyStrip t).isEmpty = false) (hid : id ≠ "")
    (hcur : s.current_placeholder_id = some pid) :
    ((recognition_callback d newId now t true s).1.current_placeholder_id = none)
    ∧ recognition_callback d newId now t false s = (s, [])
    ∧ (phMem id s.active_placeholders = true →
        phMem id ((processResultEntry false false true true true t (some id)
          s).1.active_placeholders) = false)
    ∧ ((processResultEntry false false true true false t (some id)
          s).1.active_placeholders = s.active_placeholders)
    ∧ (∀ u : Bool, (processResultEntry false false true false u t (some id)
          s).1.active_placeholders = s.active_placeholders) := by
  refine ⟨?_, ?_, ?_, ?_, ?_⟩
  · simp [recognition_callback, ht]
  · simp [recognition_callback, ht, hcur]
  · intro hmem
    simp [processResultEntry, ht, hid, hmem, phMem_phErase]
  · by_cases hmem : phMem id s.active_placeholders = true
    · simp [processResultEntry, ht, hid, hmem]
    · simp only [Bool.not_eq_true] at hmem
      simp [processResultEntry, ht, hid, hmem]
  · intro u
    simp [processResultEntry, ht]

theorem c7_witness :
    ((recognition_callback true "cd" 6 "hola" true
        { system_state := SystemState.active, is_running := true,
          program_start_time := none, last_speech_time := none,
          active_placeholders := [("ab", 5)], current_placeholder_id := some "ab",
          result_queue := [] }).1.current_placeholder_id = none)
    ∧ phMem "ab"
        ((processResultEntry false false true true true "hola" (some "ab")
            { system_state := SystemState.active, is_running := true,
              program_start_time := none, last_speech_time := none,
              active_placeholders := [("ab", 5)], current_placeholder_id := some "ab",
              result_queue := [] }).1.active_placeholders) = false :=
  ⟨(c7_placeholder_cleared_only_on_update_success true "cd" 6 "hola"
      { system_state := SystemState.active, is_running := true,
        program_start_time := none, last_speech_time := none,
        active_placeholders := [("ab", 5)], current_placeholder_id := some "ab",
        result_queue := [] } "ab" "ab" (by decide) (by decide) rfl).1,
   (c7_placeholder_cleared_only_on_update_success true "cd" 6 "hola"
      { system_state := SystemState.active, is_running := true,
        program_start_time := none, last_speech_time := none,
        active_placeholders := [("ab", 5)], current_placeholder_id := some "ab",
        result_queue := [] } "ab" "ab" (by decide) (by decide) rfl).2.2.1 (by decide)⟩

/-- Claim C8 as stated is false: an authentication-start request received
while the state is PAUSED does change the state — `_auth_state_callback`
sets AUTHENTICATING unconditionally, from any state. -/
theorem c8_counterexample_auth_start_from_paused :
    auth_state_callback "start" SystemState.paused = SystemState.authenticating
    ∧ auth_state_callback "start" SystemState.paused ≠ SystemState.paused := by
  decide

/-- Claim C8 (amended): the `"start"` request sets AUTHENTICATING from every
state, not only from ACTIVE; the `"end"` request sets the state back to
ACTIVE only when it is still AUTHENTICATING and otherwise leaves it
unchanged. -/
theorem c8_auth_state_transitions (s : SystemState) :
    auth_state_callback "start" s = SystemState.authenticating
    ∧ auth_state_callback "end" SystemState.authenticating = SystemState.active
    ∧ (s ≠ SystemState.authenticating → auth_state_callback "end" s = s) := by
  refine ⟨by simp [auth_state_callback], by decide, ?_⟩
  intro h
  simp [auth_state_callback, h]

theorem c8_witness :
    auth_state_callback "start" SystemState.waitingInput = SystemState.authenticating
    ∧ auth_state_callback "end" SystemState.waitingInput = SystemState.waitingInput :=
  ⟨(c8_auth_state_transitions SystemState.waitingInput).1,
   (c8_auth_state_transitions SystemState.waitingInput).2.2 (by decide)⟩

/-- Claim C9: a SIGINT delivered to the process (handled as
`KeyboardInterrupt` by `run`'s main loop — `setup_signal_handlers` is defined
but never installed) and the `q`/`x` quit command produce the same shutdown
behaviour: identical final state (SHUTTING_DOWN, running flag cleared) and
identical non-sleep effect sequences, stopping the audio capture and the
streaming recognition before the process exits. -/
theorem c9_sigint_and_quit_same_shutdown_path (s : CoordState) :
    (run_keyboard_interrupt s).1 = (shutdown_system s).1
    ∧ (shutdown_system s).1.system_state = SystemState.shuttingDown
    ∧ (shutdown_system s).1.is_running = false
    ∧ (run_keyboard_interrupt s).2.filter isCoreEff
        = (shutdown_system s).2.filter isCoreEff
    ∧ (shutdown_system s).2.filter isCoreEff
        = [Eff.stopCapture, Eff.stopRecognition, Eff.exitProcess] := by
  exact ⟨rfl, rfl, rfl, rfl, rfl⟩

/-- Claim C10: `stop_recognition` always clears `streaming_active` and
enqueues one `None` sentinel, whatever the current state (in particular when
streaming is already inactive); the supervisor's first iteration
(`reconnection_count` goes 0 → 1) skips the queue-draining reset, so the
sentinel enqueued by a pause survives into the first session started after a
resume, whose queue then holds exactly that sentinel; and the audio generator
of that session terminates immediately upon dequeuing the sentinel. -/
theorem c10_pause_sentinel_survives_into_first_resumed_session
    (s : RecState) (now : Nat) (q' : List (Option Nat)) (o : GenObs)
    (os : List GenObs) (ho : o.active = true) :
    stop_recognition s
      = { s with streaming_active := false, audio_queue := s.audio_queue ++ [none] }
    ∧ supervisorPrepare 0 (stop_recognition s) = (1, stop_recognition s)
    ∧ (s.audio_queue = [] →
        (start_streaming_init now
          (supervisorPrepare 0 (stop_recognition s)).2).audio_queue = [none])
    ∧ audioGeneratorRun s.max_streaming_duration (some now) (o :: os)
        (none :: q') = [] := by
  refine ⟨rfl, rfl, ?_, ?_⟩
  · intro hq
    simp [supervisorPrepare, start_streaming_init, stop_recognition, hq]
  · simp [audioGeneratorRun, ho]

theorem c10_witness :
    stop_recognition initRecState
      = { initRecState with
          streaming_active := false
          audio_queue := initRecState.audio_queue ++ [none] }
    ∧ supervisorPrepare 0 (stop_recognition initRecState)
        = (1, stop_recognition initRecState)
    ∧ (initRecState.audio_queue = [] →
        (start_streaming_init 2
          (supervisorPrepare 0 (stop_recognition initRecState)).2).audio_queue
          = [none])
    ∧ audioGeneratorRun initRecState.max_streaming_duration (some 2)
        ({ active := true, now := 2 } :: []) (none :: []) = [] :=
  c10_pause_sentinel_survives_into_first_resumed_session initRecState 2 []
    { active := true, now := 2 } [] rfl

end MeetingTranslator
